import Mathlib

/-!
Verification of the BMP header parser, pixel-layout resolver and writer of
pini-engine (src/User/pini/pepy/bmpimageplugin.py), a patched PIL BMP plugin.

The byte stream is a List Nat (each element one byte).  Stateful stream
reading (self.fp.read / tell / seek) is embedded as explicit position
passing: a read of n bytes at position p returns (data.drop p).take n and
advances p by the number of bytes actually obtained, which models the
EOF-tolerant read contract of the surrounding I/O layer.

Python exceptions are embedded as an Except over an error enumeration named
after the spec error kinds; the comment on each constructor gives the
exception message raised at the corresponding source line.
-/

namespace Bmp

/-- Little-endian 16-bit read, PIL _binary.i16le.  A short list yields zeros
for the missing bytes (the original raises on a short slice; no claim
depends on that corner). -/
def i16 (s : List Nat) : Nat :=
  s.getD 0 0 + 256 * s.getD 1 0

/-- Little-endian 32-bit read, PIL _binary.i32le. -/
def i32 (s : List Nat) : Nat :=
  s.getD 0 0 + 256 * s.getD 1 0 + 65536 * s.getD 2 0 + 16777216 * s.getD 3 0

/-- PIL _binary.o8: chr(i & 255), one byte. -/
def o8 (n : Nat) : List Nat := [n % 256]

/-- PIL _binary.o16le, two bytes little-endian. -/
def o16 (n : Nat) : List Nat := [n % 256, n / 256 % 256]

/-- PIL _binary.o32le, four bytes little-endian. -/
def o32 (n : Nat) : List Nat :=
  [n % 256, n / 256 % 256, n / 65536 % 256, n / 16777216 % 256]

/-- One stream read: up to n bytes starting at pos (ImageFile._safe_read and
fp.read both return the available prefix at EOF). -/
def safeRead (data : List Nat) (pos n : Nat) : List Nat :=
  (data.drop pos).take n

/-- Python x & ~3 (x & -4) on a nonnegative arbitrary-precision int: clear
the two low bits. -/
def andNot3 (x : Nat) : Nat := x - x % 4

/-- Error kinds, named as in the spec; comments give the source exception.  -/
inductive BmpError where
  /-- SyntaxError "Not a BMP file" (line 182) -/
  | notThisFormat
  /-- IOError "Unsupported BMP header type (%d)" (line 110) and
  IOError "Unsupported BMP Size: (%dx%d)" (line 114) -/
  | malformedHeader
  /-- IOError "Unsupported BMP pixel depth (%d)" (line 123) -/
  | unsupportedBitDepth
  /-- IOError "Unsupported BMP compression (%d)" (line 138) -/
  | unsupportedCompression
  /-- IOError "Unsupported BMP bitfields layout" (line 136) -/
  | unsupportedBitfieldLayout
  /-- IOError "Unsupported BMP Palette size (%d)" (line 147) -/
  | unsupportedPaletteSize
  /-- IOError "cannot write mode %s as BMP" (line 244, writer) -/
  | unsupportedPixelMode
  deriving DecidableEq

/-- Scanline direction as passed to the raw codec: 0 means top-down. -/
def topDown : Int := 0

/-- Scanline direction as passed to the raw codec: -1 means bottom-up. -/
def bottomUp : Int := -1

/-- The fields extracted by the header dispatch of BmpImageFile._bitmap
(lines 81-110): bit depth, resolved width/height, compression code, palette
entry size, declared color count and scan direction. -/
structure HeaderRec where
  bits : Nat
  width : Nat
  height : Nat
  compression : Nat
  lutsize : Nat
  colors : Nat
  direction : Int
  deriving DecidableEq

/-- BIT2MODE table (lines 46-54): bits to (mode, rawmode). -/
def BIT2MODE (bits : Nat) : Option (String × String) :=
  if bits = 1 then some ("P", "P;1")
  else if bits = 4 then some ("P", "P;4")
  else if bits = 8 then some ("P", "P")
  else if bits = 16 then some ("RGB", "BGR;15")
  else if bits = 24 then some ("RGB", "BGR")
  else if bits = 32 then some ("RGBA", "BGRA")
  else none

/-- The header bytes obtained at position pos: a 4-byte read for the
declared size, then a safe read of (declared - 4) more bytes (line 78-79).
The second read is clamped at EOF, so the obtained length can be shorter
than the declared size on a truncated stream. -/
def obtainedHeader (data : List Nat) (pos : Nat) : List Nat :=
  let s4 := safeRead data pos 4
  s4 ++ safeRead data (pos + s4.length) (i32 s4 - 4)

/-- Header dispatch on len(s) (lines 81-110).  The 12-byte OS/2 core header
has 16-bit width/height at offsets 4/6 and bit depth at 10; the info headers
(40/64/108/124) have 32-bit width/height at 4/8, bit depth at 14,
compression at 16 and color count at 32.  Top-down storage is signalled by
the height's top byte being exactly 0xff (line 101), in which case the
height becomes 2^32 - rawHeight (unsigned wraparound negation, line 103). -/
def parseHeaderRec (s : List Nat) : Except BmpError HeaderRec :=
  if s.length = 12 then
    .ok ⟨i16 (s.drop 10), i16 (s.drop 4), i16 (s.drop 6), 0, 3, 0, bottomUp⟩
  else if s.length = 40 ∨ s.length = 64 ∨ s.length = 108 ∨ s.length = 124 then
    if s.getD 11 0 = 255 then
      .ok ⟨i16 (s.drop 14), i32 (s.drop 4), 2 ^ 32 - i32 (s.drop 8),
           i32 (s.drop 16), 4, i32 (s.drop 32), topDown⟩
    else
      .ok ⟨i16 (s.drop 14), i32 (s.drop 4), i32 (s.drop 8),
           i32 (s.drop 16), 4, i32 (s.drop 32), bottomUp⟩
  else
    .error .malformedHeader

/-- Pixel-area cap (lines 112-114): reject width * height > 2^31. -/
def checkArea (w h : Nat) : Except BmpError Unit :=
  if w * h > 2 ^ 31 then .error .malformedHeader else .ok ()

/-- BI_BITFIELDS resolution (lines 125-136).  The mask argument is the
4-tuple of i32 reads at header offsets 0x36-14 .. 0x42-14; the two 16-bit
arms compare it against 3-element tuples (as in the source), so they can
never match a 4-element mask list. -/
def resolveBitfields (bits : Nat) (mask : List Nat) : Except BmpError String :=
  if bits = 32 ∧ mask = [0x00ff0000, 0x0000ff00, 0x000000ff, 0xff000000] then
    .ok "BGRA"
  else if bits = 16 ∧ mask = [0x00f800, 0x0007e0, 0x00001f] then
    .ok "BGR;16"
  else if bits = 16 ∧ mask = [0x007c00, 0x0003e0, 0x00001f] then
    .ok "BGR;15"
  else
    .error .unsupportedBitfieldLayout

/-- Outcome of the palette block (lines 140-164): possibly collapsed mode
and rawmode, the stored palette (joined BGR bytes) when kept, and the
stream position after the palette reads. -/
structure PalResult where
  mode : String
  rawmode : String
  palette : Option (List Nat)
  pos : Nat
  deriving DecidableEq

/-- The palette loop (lines 150-154): for each index i read lutsize bytes,
keep the first 3 as BGR, and compare against o8(i)*3.  Returns the entry
list, the final greyscale flag and the final stream position. -/
def readPaletteEntries (data : List Nat) (pos lutsize : Nat) :
    List Nat → List (List Nat) × Bool × Nat
  | [] => ([], true, pos)
  | i :: rest =>
    let chunk := safeRead data pos lutsize
    let rgb := chunk.take 3
    let next := readPaletteEntries data (pos + chunk.length) lutsize rest
    (rgb :: next.1, ((if rgb = List.replicate 3 (i % 256) then next.2.1 else false)), next.2.2)

/-- The enumerated palette indices (lines 144-149): {0, 255} when the color
count is 2, {0 .. colors-1} otherwise. -/
def paletteIndices (colors : Nat) : List Nat :=
  if colors = 2 then [0, 255] else List.range colors

/-- Palette ingestion (lines 140-164).  colors = 2 enumerates indices
{0, 255}; otherwise a color count above 2^16 (or zero, impossible after the
line-117 default) is rejected; an all-greyscale palette collapses to mode
"1" (two entries) or "L" (more), otherwise the mode stays "P" with the
joined BGR entries kept. -/
def readPalette (data : List Nat) (pos colors lutsize : Nat) (rawmode : String) :
    Except BmpError PalResult :=
  if colors ≠ 2 ∧ (colors > 2 ^ 16 ∨ colors = 0) then
    .error .unsupportedPaletteSize
  else
    let r := readPaletteEntries data pos lutsize (paletteIndices colors)
    if r.2.1 then
      if colors = 2 then .ok ⟨"1", "1", none, r.2.2⟩
      else .ok ⟨"L", "L", none, r.2.2⟩
    else .ok ⟨"P", rawmode, some r.1.flatten, r.2.2⟩

/-- The decoder's row stride (line 172): ((width*bits+31) >> 3) & ~3. -/
def tileStride (width bits : Nat) : Nat :=
  andNot3 ((width * bits + 31) >>> 3)

/-- The tile descriptor built at lines 169-173:
("raw", (0,0)+size, offset, (rawmode, stride, direction)). -/
structure Tile where
  rawmode : String
  x0 : Nat
  y0 : Nat
  x1 : Nat
  y1 : Nat
  offset : Nat
  stride : Nat
  direction : Int
  deriving DecidableEq

/-- The durable outputs of one _bitmap call: mode, size, the bit depth and
compression read from the header (info["compression"]), the stored palette
if any, and the tile descriptor. -/
structure DecodeResult where
  mode : String
  width : Nat
  height : Nat
  bits : Nat
  compression : Nat
  palette : Option (List Nat)
  tile : Tile
  deriving DecidableEq

/-- The palette block and tile construction of _bitmap (lines 140-175):
palette ingestion for mode "P" (with the line-116-117 color-count default,
which the source computes earlier but only uses here), the second offset
fallback (line 166) and the tile built at lines 169-173. -/
def bitmapPalette (data : List Nat) (posAfterHeader offset1 : Nat) (hdr : HeaderRec)
    (mode0 rawmode1 : String) : Except BmpError DecodeResult :=
  match (if mode0 = "P" then
           readPalette data posAfterHeader
             (if hdr.colors = 0 then 2 ^ hdr.bits else hdr.colors)
             hdr.lutsize rawmode1
         else .ok ⟨mode0, rawmode1, none, posAfterHeader⟩) with
  | .error e => .error e
  | .ok pal =>
    .ok { mode := pal.mode, width := hdr.width, height := hdr.height,
          bits := hdr.bits, compression := hdr.compression,
          palette := pal.palette,
          tile := { rawmode := pal.rawmode, x0 := 0, y0 := 0,
                    x1 := hdr.width, y1 := hdr.height,
                    offset := if offset1 = 0 then pal.pos else offset1,
                    stride := tileStride hdr.width hdr.bits,
                    direction := hdr.direction } }

/-- The compression dispatch of _bitmap (lines 125-138): for compression 3
resolve the four masks read at s[0x36-14 ..] against the fixed table; any
other nonzero compression code is rejected. -/
def bitmapCompress (data : List Nat) (posAfterHeader offset1 : Nat) (s : List Nat)
    (hdr : HeaderRec) (mode0 rawmode0 : String) : Except BmpError DecodeResult :=
  match (if hdr.compression = 3 then
           resolveBitfields hdr.bits
             [i32 (s.drop 40), i32 (s.drop 44), i32 (s.drop 48), i32 (s.drop 52)]
         else if hdr.compression ≠ 0 then .error .unsupportedCompression
         else .ok rawmode0) with
  | .error e => .error e
  | .ok rawmode1 => bitmapPalette data posAfterHeader offset1 hdr mode0 rawmode1

/-- The mode lookup of _bitmap (lines 119-123). -/
def bitmapMode (data : List Nat) (posAfterHeader offset1 : Nat) (s : List Nat)
    (hdr : HeaderRec) : Except BmpError DecodeResult :=
  match BIT2MODE hdr.bits with
  | none => .error .unsupportedBitDepth
  | some (mode0, rawmode0) =>
    bitmapCompress data posAfterHeader offset1 s hdr mode0 rawmode0

/-- _bitmap after the header record is in hand (lines 112-175): the pixel
area cap, then mode lookup, compression dispatch, palette and tile.
posAfterHeader is fp.tell() after the header bytes; offset1 is the offset
value after lines 75-76. -/
def bitmapRest (data : List Nat) (posAfterHeader offset1 : Nat) (s : List Nat)
    (hdr : HeaderRec) : Except BmpError DecodeResult :=
  match checkArea hdr.width hdr.height with
  | .error e => .error e
  | .ok _ => bitmapMode data posAfterHeader offset1 s hdr

/-- BmpImageFile._bitmap(header, offset) on a stream positioned at pos0:
seek to headerArg when nonzero (lines 70-71), the first offset fallback to
fp.tell() (lines 75-76, which runs before the header bytes are read, so the
fallback is the entry position), the header reads, then the rest. -/
def bitmap (data : List Nat) (headerArg offsetArg pos0 : Nat) :
    Except BmpError DecodeResult :=
  match parseHeaderRec (obtainedHeader data (if headerArg ≠ 0 then headerArg else pos0)) with
  | .error e => .error e
  | .ok hdr =>
    bitmapRest data
      ((if headerArg ≠ 0 then headerArg else pos0) +
        (obtainedHeader data (if headerArg ≠ 0 then headerArg else pos0)).length)
      (if offsetArg = 0 then (if headerArg ≠ 0 then headerArg else pos0) else offsetArg)
      (obtainedHeader data (if headerArg ≠ 0 then headerArg else pos0)) hdr

/-- BmpImageFile._open (lines 177-185): read the 14-byte file header, check
the "BM" magic, take the declared pixel-data offset from bytes 10-13 and
run _bitmap on the stream now positioned at 14. -/
def bmpOpen (data : List Nat) : Except BmpError DecodeResult :=
  let s := data.take 14
  if s.take 2 ≠ [66, 77] then .error .notThisFormat
  else bitmap data 0 (i32 (s.drop 10)) 14

/-! ## The external strided raw-pixel codec

The generic raw codec that physically reads and writes scanlines is an
external collaborator of this repository (spec section 1); the plugin only
hands it a tile descriptor.  The definitions below are therefore modelled
from the spec, not from repository source. -/

/-- In-memory pixel buffers: single-channel rows for modes "1"/"L"/"P",
(r,g,b) rows for "RGB", (r,g,b,a) rows for "RGBA". -/
inductive PixelData where
  | gray (rows : List (List Nat))
  | rgb (rows : List (List (Nat × Nat × Nat)))
  | rgba (rows : List (List (Nat × Nat × Nat × Nat)))
  deriving DecidableEq

/-- The in-memory image object: mode, size, pixel buffer, and the palette
bytes attached to it (BGR triples joined when produced by the decoder;
the BGRX bytes handed to the writer for mode "P"). -/
structure Image where
  mode : String
  width : Nat
  height : Nat
  data : PixelData
  palette : List Nat
  deriving DecidableEq

/-- Modelled from the spec: a padded scanline; the row bytes are padded
with zeros to the 4-byte-aligned stride. -/
def padRow (stride : Nat) (l : List Nat) : List Nat :=
  l ++ List.replicate (stride - l.length) 0

/-- Modelled from the spec: raw tag "BGRA", 4 bytes per pixel in
blue, green, red, alpha order. -/
def bgraBytes (row : List (Nat × Nat × Nat × Nat)) : List Nat :=
  row.flatMap (fun p => [p.2.2.1 % 256, p.2.1 % 256, p.1 % 256, p.2.2.2 % 256])

/-- Modelled from the spec: raw tag "BGR", 3 bytes per pixel in
blue, green, red order. -/
def bgrBytes (row : List (Nat × Nat × Nat)) : List Nat :=
  row.flatMap (fun p => [p.2.2 % 256, p.2.1 % 256, p.1 % 256])

/-- Modelled from the spec: bilevel packing, 8 pixels per byte, most
significant bit first, the last byte zero-padded. -/
def packBits1 : List Nat → List Nat
  | [] => []
  | a :: b :: c :: d :: e :: f :: g :: h :: rest =>
    (a * 128 + b * 64 + c * 32 + d * 16 + e * 8 + f * 4 + g * 2 + h) :: packBits1 rest
  | l =>
    [l.getD 0 0 * 128 + l.getD 1 0 * 64 + l.getD 2 0 * 32 + l.getD 3 0 * 16 +
     l.getD 4 0 * 8 + l.getD 5 0 * 4 + l.getD 6 0 * 2]

/-- Modelled from the spec: write-side scanline serialization for the raw
tags the writer uses ("1", "L", "P", "BGR", "BGRA"). -/
def rawEncodeRows (rawmode : String) (d : PixelData) : List (List Nat) :=
  match d with
  | .rgba rows => rows.map bgraBytes
  | .rgb rows => rows.map bgrBytes
  | .gray rows =>
    if rawmode = "1" then
      rows.map (fun r => packBits1 (r.map (fun v => if v = 0 then 0 else 1)))
    else
      rows.map (fun r => r.map (· % 256))

/-- Modelled from the spec: the write side of the strided codec.  The
writer always emits bottom-up (direction -1), so the rows are stored in
reverse order, each padded to the stride. -/
def rawWrite (rawmode : String) (stride : Nat) (d : PixelData) : List Nat :=
  (((rawEncodeRows rawmode d).reverse).map (padRow stride)).flatten

/-- Modelled from the spec: read w pixels of raw tag "BGRA" from a
scanline. -/
def parseRowBGRA : Nat → List Nat → List (Nat × Nat × Nat × Nat)
  | 0, _ => []
  | w + 1, bs => (bs.getD 2 0, bs.getD 1 0, bs.getD 0 0, bs.getD 3 0) ::
      parseRowBGRA w (bs.drop 4)

/-- Modelled from the spec: read w pixels of raw tag "BGR" from a
scanline. -/
def parseRowBGR : Nat → List Nat → List (Nat × Nat × Nat)
  | 0, _ => []
  | w + 1, bs => (bs.getD 2 0, bs.getD 1 0, bs.getD 0 0) :: parseRowBGR w (bs.drop 3)

/-- Modelled from the spec: read w single-byte pixels ("L" / "P") from a
scanline. -/
def parseRowBytes : Nat → List Nat → List Nat
  | 0, _ => []
  | w + 1, bs => bs.getD 0 0 :: parseRowBytes w (bs.drop 1)

/-- The eight bits of a byte, most significant first. -/
def byteBits (b : Nat) : List Nat :=
  [b / 128 % 2, b / 64 % 2, b / 32 % 2, b / 16 % 2, b / 8 % 2, b / 4 % 2, b / 2 % 2, b % 2]

/-- Modelled from the spec: read w bit-packed pixels (raw tags "1" and
"P;1"), scaling each bit by scale (255 for bilevel intensity, 1 for a
palette index). -/
def parseRowBits (scale w : Nat) (bs : List Nat) : List Nat :=
  ((bs.flatMap byteBits).take w).map (· * scale)

/-- Modelled from the spec: read w nibble-packed pixels (raw tag "P;4"),
high nibble first. -/
def parseRowNibbles (w : Nat) (bs : List Nat) : List Nat :=
  (bs.flatMap (fun b => [b / 16, b % 16])).take w

/-- Modelled from the spec: read w BGR 5-5-5 pixels (raw tag "BGR;15"),
each a 16-bit little-endian word, 5-bit channels scaled to 8 bits. -/
def parseRow15 : Nat → List Nat → List (Nat × Nat × Nat)
  | 0, _ => []
  | w + 1, bs =>
    let v := bs.getD 0 0 + 256 * bs.getD 1 0
    (v / 1024 % 32 * 8, v / 32 % 32 * 8, v % 32 * 8) :: parseRow15 w (bs.drop 2)

/-- Modelled from the spec: read w BGR 5-6-5 pixels (raw tag "BGR;16"). -/
def parseRow16 : Nat → List Nat → List (Nat × Nat × Nat)
  | 0, _ => []
  | w + 1, bs =>
    let v := bs.getD 0 0 + 256 * bs.getD 1 0
    (v / 2048 % 32 * 8, v / 32 % 64 * 4, v % 32 * 8) :: parseRow16 w (bs.drop 2)

/-- Modelled from the spec: split the pixel area into h scanlines of
stride bytes and parse each. -/
def decodeRows (parse : List Nat → List α) (stride : Nat) :
    Nat → List Nat → List (List α)
  | 0, _ => []
  | h + 1, bs => parse (bs.take stride) :: decodeRows parse stride h (bs.drop stride)

/-- Modelled from the spec: stored scanline order; direction -1 means the
first stored row is the bottom image row. -/
def orientRows (direction : Int) (l : List α) : List α :=
  if direction = -1 then l.reverse else l

/-- Modelled from the spec: the read side of the strided codec, dispatching
on the raw encoding tag of the tile descriptor. -/
def decodePixels (rawmode : String) (w h stride : Nat) (direction : Int)
    (bs : List Nat) : PixelData :=
  if rawmode = "BGRA" then
    .rgba (orientRows direction (decodeRows (parseRowBGRA w) stride h bs))
  else if rawmode = "BGR" then
    .rgb (orientRows direction (decodeRows (parseRowBGR w) stride h bs))
  else if rawmode = "BGR;15" then
    .rgb (orientRows direction (decodeRows (parseRow15 w) stride h bs))
  else if rawmode = "BGR;16" then
    .rgb (orientRows direction (decodeRows (parseRow16 w) stride h bs))
  else if rawmode = "1" then
    .gray (orientRows direction (decodeRows (parseRowBits 255 w) stride h bs))
  else if rawmode = "P;1" then
    .gray (orientRows direction (decodeRows (parseRowBits 1 w) stride h bs))
  else if rawmode = "P;4" then
    .gray (orientRows direction (decodeRows (parseRowNibbles w) stride h bs))
  else
    .gray (orientRows direction (decodeRows (parseRowBytes w) stride h bs))

/-- Full decode: _open followed by the external codec run on the tile
descriptor, producing the in-memory image. -/
def decodeImage (data : List Nat) : Except BmpError Image :=
  match bmpOpen data with
  | .error e => .error e
  | .ok res =>
    .ok { mode := res.mode, width := res.width, height := res.height,
          data := decodePixels res.tile.rawmode res.width res.height
                    res.tile.stride res.tile.direction (data.drop res.tile.offset),
          palette := res.palette.getD [] }

/-! ## The writer (_save, lines 231-318) -/

/-- SAVE table (lines 231-237): mode to (rawmode, bits, colors). -/
def SAVE (mode : String) : Option (String × Nat × Nat) :=
  if mode = "1" then some ("1", 1, 2)
  else if mode = "L" then some ("L", 8, 256)
  else if mode = "P" then some ("P", 8, 256)
  else if mode = "RGB" then some ("BGR", 24, 0)
  else if mode = "RGBA" then some ("BGRA", 32, 0)
  else none

/-- The writer's row stride (line 256): ((width*bits+7)//8+3) & ~3. -/
def saveStride (width bits : Nat) : Nat :=
  andNot3 ((width * bits + 7) / 8 + 3)

/-- _save (lines 240-318) at the default dpi (96, 96); the ppm conversion
int(96 * 39.3701) is evaluated exactly (3779) to avoid floating point,
and the ppm fields are never consulted by any claim.  The emitted stream
is: 14-byte file header, info header declaring size header+16 and
compression 3, the channel masks plus color-space block for mode "RGBA"
only, 16 zero bytes, the palette when the mode needs one, then the pixel
data written bottom-up by the external codec. -/
def bmpSave (im : Image) : Except BmpError (List Nat) :=
  match SAVE im.mode with
  | none => .error .unsupportedPixelMode
  | some (rawmode, bits, colors) =>
    let ppm : Nat := 96 * 393701 / 10000
    let stride := saveStride im.width bits
    let header : Nat := if im.mode = "RGBA" then 108 else 40
    let offset := 14 + header + colors * 4
    let image := stride * im.height
    .ok (([66, 77] ++ o32 (offset + image + 16) ++ o32 0 ++ o32 (offset + 16)) ++
      (o32 (header + 16) ++ o32 im.width ++ o32 im.height ++ o16 1 ++ o16 bits ++
       o32 3 ++ o32 image ++ o32 ppm ++ o32 ppm ++ o32 colors ++ o32 colors) ++
      (if im.mode = "RGBA" then
         o32 0x00ff0000 ++ o32 0x0000ff00 ++ o32 0x000000ff ++ o32 0xff000000 ++
         [66, 71, 82, 115] ++ List.replicate 36 0 ++ o32 0 ++ o32 0 ++ o32 0
       else []) ++
      List.replicate 16 0 ++
      (if im.mode = "1" then [0, 0, 0, 0, 255, 255, 255, 255]
       else if im.mode = "L" then (List.range 256).flatMap (fun i => List.replicate 4 i)
       else if im.mode = "P" then im.palette
       else []) ++
      rawWrite rawmode stride im.data)

/-- The byte stream produced by a successful save (empty on failure). -/
def savedOf (im : Image) : List Nat := (bmpSave im).toOption.getD []

/-! ## Concrete example inputs used by the theorems below -/

/-- A 1x1 bilevel image. -/
def im1bit : Image := ⟨"1", 1, 1, .gray [[255]], []⟩

/-- A 1x1 truecolor-with-alpha image. -/
def imRGBA1 : Image := ⟨"RGBA", 1, 1, .rgba [[(1, 2, 3, 4)]], []⟩

/-- A 1x1 truecolor image. -/
def imRGB1 : Image := ⟨"RGB", 1, 1, .rgb [[(10, 20, 30)]], []⟩

/-- A 108-byte info header: 1x1, 16-bit, BI_BITFIELDS compression, masks
(0xf800, 0x7e0, 0x1f, 0) at offsets 40..55 (the 5-6-5 layout). -/
def masked565Stream : List Nat :=
  o32 108 ++ o32 1 ++ o32 1 ++ o16 1 ++ o16 16 ++ o32 3 ++ o32 0 ++
  o32 0 ++ o32 0 ++ o32 0 ++ o32 0 ++
  o32 0xf800 ++ o32 0x07e0 ++ o32 0x1f ++ o32 0 ++ List.replicate 52 0

/-- A 40-byte info header: width 1, raw height 0x80000000 (top byte 0x80:
high bit set but not 0xff), 24-bit, uncompressed. -/
def highBitHeightStream : List Nat :=
  o32 40 ++ o32 1 ++ o32 0x80000000 ++ o16 1 ++ o16 24 ++ o32 0 ++
  o32 0 ++ o32 0 ++ o32 0 ++ o32 0 ++ o32 0

/-- A 40-byte info header: width 2, raw height 0xff000001 (top byte 0xff),
24-bit, uncompressed. -/
def topDownStream : List Nat :=
  o32 40 ++ o32 2 ++ o32 0xff000001 ++ o16 1 ++ o16 24 ++ o32 0 ++
  o32 0 ++ o32 0 ++ o32 0 ++ o32 0 ++ o32 0

/-- A stream declaring a 1000-byte header but truncated after 12 bytes;
the 12 obtained bytes form a valid OS/2 core header (1x1, 24-bit). -/
def truncatedHeaderStream : List Nat := o32 1000 ++ [1, 0, 1, 0, 1, 0, 24, 0]

/-- A 40-byte info header (1x1, 8-bit, 257 declared colors) followed by a
257-entry palette whose entry i is (i mod 256, i mod 256, i mod 256):
entries 0..255 are the greyscale ramp and entry 256 is (0,0,0). -/
def wrapGreyPaletteStream : List Nat :=
  o32 40 ++ o32 1 ++ o32 1 ++ o16 1 ++ o16 8 ++ o32 0 ++
  o32 0 ++ o32 0 ++ o32 0 ++ o32 257 ++ o32 0 ++
  ((List.range 256).flatMap (fun i => [i, i, i, 0])) ++ [0, 0, 0, 0]

/-- A complete 54-byte BMP file whose file header declares pixel-data
offset 0; info header 1x1, 24-bit, uncompressed; no palette. -/
def zeroOffsetFile : List Nat :=
  [66, 77] ++ o32 82 ++ o32 0 ++ o32 0 ++
  o32 40 ++ o32 1 ++ o32 1 ++ o16 1 ++ o16 24 ++ o32 0 ++
  o32 0 ++ o32 0 ++ o32 0 ++ o32 0 ++ o32 0

/-- A 40-byte info header declaring 65536 x 65536 pixels. -/
def hugeAreaStream : List Nat :=
  o32 40 ++ o32 65536 ++ o32 65536 ++ o16 1 ++ o16 24 ++ o32 0 ++
  o32 0 ++ o32 0 ++ o32 0 ++ o32 0 ++ o32 0

/-- The header record parsed from hugeAreaStream. -/
def hdrHuge : HeaderRec := ⟨24, 65536, 65536, 0, 4, 0, bottomUp⟩

/-- A plain 40-byte info header: 1x1, 24-bit, uncompressed. -/
def plainInfo24 : List Nat :=
  o32 40 ++ o32 1 ++ o32 1 ++ o16 1 ++ o16 24 ++ o32 0 ++
  o32 0 ++ o32 0 ++ o32 0 ++ o32 0 ++ o32 0

/-- The decode result of bitmap plainInfo24 0 100 0. -/
def res24 : DecodeResult := ⟨"RGB", 1, 1, 24, 0, none, ⟨"BGR", 0, 0, 1, 1, 100, 4, -1⟩⟩

/-- A 2-entry greyscale palette region: (0,0,0,_) then (255,255,255,_). -/
def greyPalBytes : List Nat := [0, 0, 0, 0, 255, 255, 255, 255]

/-- The header, palette and padding bytes bmpSave emits before the pixel
data for a w x h mode "1" image. -/
def saved1Header (w h : Nat) : List Nat :=
  [66, 77] ++ o32 (62 + saveStride w 1 * h + 16) ++ o32 0 ++ o32 78 ++
  o32 56 ++ o32 w ++ o32 h ++ o16 1 ++ o16 1 ++ o32 3 ++ o32 (saveStride w 1 * h) ++
  o32 3779 ++ o32 3779 ++ o32 2 ++ o32 2 ++ List.replicate 16 0 ++
  [0, 0, 0, 0, 255, 255, 255, 255]

/-- The bytes bmpSave emits before the pixel data for a mode "L" image. -/
def savedLHeader (w h : Nat) : List Nat :=
  [66, 77] ++ o32 (1078 + saveStride w 8 * h + 16) ++ o32 0 ++ o32 1094 ++
  o32 56 ++ o32 w ++ o32 h ++ o16 1 ++ o16 8 ++ o32 3 ++ o32 (saveStride w 8 * h) ++
  o32 3779 ++ o32 3779 ++ o32 256 ++ o32 256 ++ List.replicate 16 0 ++
  (List.range 256).flatMap (fun i => List.replicate 4 i)

/-- The bytes bmpSave emits before the pixel data for a mode "P" image
with palette bytes pal. -/
def savedPHeader (w h : Nat) (pal : List Nat) : List Nat :=
  [66, 77] ++ o32 (1078 + saveStride w 8 * h + 16) ++ o32 0 ++ o32 1094 ++
  o32 56 ++ o32 w ++ o32 h ++ o16 1 ++ o16 8 ++ o32 3 ++ o32 (saveStride w 8 * h) ++
  o32 3779 ++ o32 3779 ++ o32 256 ++ o32 256 ++ List.replicate 16 0 ++ pal

/-- The bytes bmpSave emits before the pixel data for a mode "RGB" image. -/
def savedRGBHeader (w h : Nat) : List Nat :=
  [66, 77] ++ o32 (54 + saveStride w 24 * h + 16) ++ o32 0 ++ o32 70 ++
  o32 56 ++ o32 w ++ o32 h ++ o16 1 ++ o16 24 ++ o32 3 ++ o32 (saveStride w 24 * h) ++
  o32 3779 ++ o32 3779 ++ o32 0 ++ o32 0 ++ List.replicate 16 0

/-- A stream declaring a 20-byte header, fully supplied: 20 is not one of
the five recognized header sizes. -/
def badCountStream : List Nat := o32 20 ++ List.replicate 16 7

/-- A 12-byte OS/2 core header: 2x2, 24-bit. -/
def os2CoreStream : List Nat := [12, 0, 0, 0, 2, 0, 2, 0, 1, 0, 24, 0]

/-- The decode result of bitmap os2CoreStream 0 50 0. -/
def resCore : DecodeResult := ⟨"RGB", 2, 2, 24, 0, none, ⟨"BGR", 0, 0, 2, 2, 50, 8, -1⟩⟩

/-- The decode result of bmpOpen zeroOffsetFile. -/
def res10 : DecodeResult := ⟨"RGB", 1, 1, 24, 0, none, ⟨"BGR", 0, 0, 1, 1, 14, 4, -1⟩⟩

/-- The palette result for a collapsed 2-entry greyscale palette read at
position 0 with 4-byte entries. -/
def palGrey2 : PalResult := ⟨"1", "1", none, 8⟩

/-- The first 138 bytes (file header, info header, masks, color-space
block, padding) that bmpSave emits for a w x h RGBA image. -/
def rgbaHeaderBytes (w h : Nat) : List Nat :=
  [66, 77] ++ o32 (122 + saveStride w 32 * h + 16) ++ o32 0 ++ o32 138 ++
  o32 124 ++ o32 w ++ o32 h ++ o16 1 ++ o16 32 ++ o32 3 ++
  o32 (saveStride w 32 * h) ++ o32 3779 ++ o32 3779 ++ o32 0 ++ o32 0 ++
  o32 16711680 ++ o32 65280 ++ o32 255 ++ o32 4278190080 ++
  [66, 71, 82, 115] ++ List.replicate 36 0 ++ o32 0 ++ o32 0 ++ o32 0 ++
  List.replicate 16 0

/-- The info-header bytes (declared size 124) the parser obtains back from
a saved RGBA image: bytes 14..137 of rgbaHeaderBytes. -/
def rgbaInfoBytes (w h : Nat) : List Nat :=
  o32 124 ++ o32 w ++ o32 h ++ o16 1 ++ o16 32 ++ o32 3 ++
  o32 (saveStride w 32 * h) ++ o32 3779 ++ o32 3779 ++ o32 0 ++ o32 0 ++
  o32 16711680 ++ o32 65280 ++ o32 255 ++ o32 4278190080 ++
  [66, 71, 82, 115] ++ List.replicate 36 0 ++ o32 0 ++ o32 0 ++ o32 0 ++
  List.replicate 16 0

end Bmp

/-- Decidable equality for Except results, used to evaluate the decoder and
writer on concrete inputs. -/
instance {ε α : Type} [DecidableEq ε] [DecidableEq α] : DecidableEq (Except ε α)
  | .ok a, .ok b =>
    if h : a = b then .isTrue (by rw [h]) else .isFalse (by simp [h])
  | .error a, .error b =>
    if h : a = b then .isTrue (by rw [h]) else .isFalse (by simp [h])
  | .ok _, .error _ => .isFalse (by simp)
  | .error _, .ok _ => .isFalse (by simp)
namespace Bmp

/-! ## Helper lemmas -/

theorem bitmapRest_ok {data : List Nat} {pos1 off1 : Nat} {s : List Nat}
    {hdr : HeaderRec} {res : DecodeResult}
    (h : bitmapRest data pos1 off1 s hdr = .ok res) :
    res.width = hdr.width ∧ res.height = hdr.height ∧ res.bits = hdr.bits ∧
    res.compression = hdr.compression ∧ res.tile.direction = hdr.direction ∧
    res.tile.stride = tileStride hdr.width hdr.bits ∧
    (off1 ≠ 0 → res.tile.offset = off1) := by
  unfold bitmapRest bitmapMode bitmapCompress bitmapPalette at h
  repeat' split at h
  case _ => exact absurd h (by simp)
  case _ => exact absurd h (by simp)
  case _ => exact absurd h (by simp)
  case _ => exact absurd h (by simp)
  case _ hoff =>
    injection h with h2
    subst h2
    refine ⟨rfl, rfl, rfl, rfl, rfl, rfl, fun hne => ?_⟩
    exact absurd hoff hne
  case _ hoff =>
    injection h with h2
    subst h2
    exact ⟨rfl, rfl, rfl, rfl, rfl, rfl, fun hne => rfl⟩

theorem parseHeaderRec_len {s : List Nat} {hdr : HeaderRec}
    (h : parseHeaderRec s = .ok hdr) :
    s.length = 12 ∨ s.length = 40 ∨ s.length = 64 ∨ s.length = 108 ∨ s.length = 124 := by
  unfold parseHeaderRec at h
  split at h
  · next h12 => exact Or.inl h12
  · split at h
    · next hor => exact Or.inr hor
    · exact absurd h (by simp)

theorem parseHeaderRec_err {s : List Nat}
    (hno : ¬(s.length = 12 ∨ s.length = 40 ∨ s.length = 64 ∨ s.length = 108 ∨
      s.length = 124)) :
    parseHeaderRec s = .error .malformedHeader := by
  unfold parseHeaderRec
  rw [if_neg (fun h => hno (Or.inl h)), if_neg (fun h => hno (Or.inr h))]

theorem bitmap_ok_inv {data : List Nat} {hA oA p0 : Nat} {res : DecodeResult}
    (h : bitmap data hA oA p0 = .ok res) :
    ∃ hdr : HeaderRec,
      parseHeaderRec (obtainedHeader data (if hA ≠ 0 then hA else p0)) = .ok hdr ∧
      bitmapRest data ((if hA ≠ 0 then hA else p0) +
          (obtainedHeader data (if hA ≠ 0 then hA else p0)).length)
        (if oA = 0 then (if hA ≠ 0 then hA else p0) else oA)
        (obtainedHeader data (if hA ≠ 0 then hA else p0)) hdr = .ok res := by
  unfold bitmap at h
  split at h
  · exact absurd h (by simp)
  · next hdr hp => exact ⟨hdr, hp, h⟩

/-! ## Claim theorems -/

/-- C9: for every width and bit depth, the writer's stride
((width*bits+7)//8+3) & ~3 (line 256) equals the decoder's stride
((width*bits+31) >> 3) & ~3 (line 172). -/
theorem stride_writer_eq_resolver (w bits : Nat) : saveStride w bits = tileStride w bits := by
  unfold saveStride tileStride andNot3
  rw [Nat.shiftRight_eq_div_pow]
  generalize w * bits = x
  rw [show (2:Nat) ^ 3 = 8 from rfl]
  omega

/-- C2: with 16-bit depth and BitfieldMasked compression the resolver
always fails with UnsupportedBitfieldLayout, whatever the masks: line 127
reads a 4-tuple of masks but lines 130 and 132 compare it against
3-element tuples, which can never match.  In particular the recognized
5-6-5 masks (0xf800, 0x7e0, 0x1f) are rejected, contradicting the claim
that they resolve to the BGR 5-6-5 raw encoding. -/
theorem bitfields16_always_unsupported :
    (∀ a b c d : Nat, resolveBitfields 16 [a, b, c, d] = .error .unsupportedBitfieldLayout) ∧
    bitmap masked565Stream 0 99 0 = .error .unsupportedBitfieldLayout := by
  constructor
  · intro a b c d
    unfold resolveBitfields
    rw [if_neg (by simp), if_neg (by simp), if_neg (by simp)]
  · decide

/-- C8: the decoder's row stride is ((width * bits + 31) >> 3) & ~3, and
the formula gives 4 at (1,1), (9,1), (17,1) and 16 at (5,24). -/
theorem decoder_stride_formula (data : List Nat) (hA oA p0 : Nat) (res : DecodeResult)
    (h : bitmap data hA oA p0 = .ok res) :
    res.tile.stride = andNot3 ((res.width * res.bits + 31) >>> 3) ∧
    tileStride 1 1 = 4 ∧ tileStride 9 1 = 4 ∧ tileStride 17 1 = 4 ∧ tileStride 5 24 = 16 := by
  obtain ⟨hdr, hp, hrest⟩ := bitmap_ok_inv h
  obtain ⟨hw, hh, hb, _, _, hs, _⟩ := bitmapRest_ok hrest
  exact ⟨by rw [hs, hw, hb]; rfl, by decide, by decide, by decide, by decide⟩

/-- Witness for C8 at a concrete 1x1 24-bit stream. -/
theorem decoder_stride_formula_witness :
    res24.tile.stride = andNot3 ((res24.width * res24.bits + 31) >>> 3) ∧
    tileStride 1 1 = 4 ∧ tileStride 9 1 = 4 ∧ tileStride 17 1 = 4 ∧ tileStride 5 24 = 16 :=
  decoder_stride_formula plainInfo24 0 100 0 res24 (by decide)

/-- C5: a parsed header whose pixel area exceeds 2^31 makes _bitmap fail
with MalformedHeader (the check at lines 112-114, which runs before the
mode lookup and before any palette read); an area of at most 2^31 passes
the check. -/
theorem area_cap (data : List Nat) (hA oA p0 : Nat) (hdr : HeaderRec)
    (hp : parseHeaderRec (obtainedHeader data (if hA ≠ 0 then hA else p0)) = .ok hdr) :
    (hdr.width * hdr.height > 2 ^ 31 → bitmap data hA oA p0 = .error .malformedHeader) ∧
    (hdr.width * hdr.height ≤ 2 ^ 31 → checkArea hdr.width hdr.height = .ok ()) := by
  constructor
  · intro hbig
    have hc : checkArea hdr.width hdr.height = .error .malformedHeader := by
      unfold checkArea
      rw [if_pos hbig]
    unfold bitmap
    rw [hp]
    dsimp only
    unfold bitmapRest
    rw [hc]
  · intro hle
    unfold checkArea
    rw [if_neg (by omega)]

/-- Witness for C5 at the 65536 x 65536 header. -/
theorem area_cap_witness : bitmap hugeAreaStream 0 77 0 = .error .malformedHeader :=
  (area_cap hugeAreaStream 0 77 0 hdrHuge (by decide)).1 (by decide)

end Bmp
namespace Bmp

/-! ## Writer output shape lemmas -/

theorem bmpSave_1 (w h : Nat) (d : PixelData) (pal : List Nat) :
    bmpSave ⟨"1", w, h, d, pal⟩ =
      .ok (saved1Header w h ++ rawWrite "1" (saveStride w 1) d) := by
  simp [bmpSave, SAVE, saved1Header]

theorem bmpSave_L (w h : Nat) (d : PixelData) (pal : List Nat) :
    bmpSave ⟨"L", w, h, d, pal⟩ =
      .ok (savedLHeader w h ++ rawWrite "L" (saveStride w 8) d) := by
  simp [bmpSave, SAVE, savedLHeader]

theorem bmpSave_P (w h : Nat) (d : PixelData) (pal : List Nat) :
    bmpSave ⟨"P", w, h, d, pal⟩ =
      .ok (savedPHeader w h pal ++ rawWrite "P" (saveStride w 8) d) := by
  simp [bmpSave, SAVE, savedPHeader]

theorem bmpSave_RGB (w h : Nat) (d : PixelData) (pal : List Nat) :
    bmpSave ⟨"RGB", w, h, d, pal⟩ =
      .ok (savedRGBHeader w h ++ rawWrite "BGR" (saveStride w 24) d) := by
  simp [bmpSave, SAVE, savedRGBHeader]

theorem bmpSave_RGBA (w h : Nat) (d : PixelData) (pal : List Nat) :
    bmpSave ⟨"RGBA", w, h, d, pal⟩ =
      .ok (rgbaHeaderBytes w h ++ rawWrite "BGRA" (saveStride w 32) d) := by
  simp [bmpSave, SAVE, rgbaHeaderBytes]

/-- C4 amended: the writer declares info-header size 56 (40 + 16 padding
bytes) for the non-alpha modes and 124 for RGBA; it declares BitfieldMasked
compression (3) for every mode, not only the alpha mode; and the channel
masks appear only in the RGBA header (bytes 54..69 are the four masks for
RGBA and 16 zero padding bytes otherwise). -/
theorem writer_header_fields (im : Image) (out : List Nat) (h : bmpSave im = .ok out) :
    i32 (out.drop 14) = (if im.mode = "RGBA" then 124 else 56) ∧
    i32 (out.drop 30) = 3 ∧
    (out.drop 54).take 16 = (if im.mode = "RGBA" then
        [0, 0, 255, 0, 0, 255, 0, 0, 255, 0, 0, 0, 0, 0, 0, 255]
      else List.replicate 16 0) := by
  obtain ⟨mode, w, ht, d, pal⟩ := im
  by_cases h1 : mode = "1"
  · subst h1
    rw [bmpSave_1] at h
    injection h with h2
    subst h2
    refine ⟨?_, ?_, ?_⟩ <;> simp [saved1Header, i32, o32, o16]
  by_cases h2m : mode = "L"
  · subst h2m
    rw [bmpSave_L] at h
    injection h with h2
    subst h2
    refine ⟨?_, ?_, ?_⟩ <;> simp [savedLHeader, i32, o32, o16]
  by_cases h3m : mode = "P"
  · subst h3m
    rw [bmpSave_P] at h
    injection h with h2
    subst h2
    refine ⟨?_, ?_, ?_⟩ <;> simp [savedPHeader, i32, o32, o16]
  by_cases h4m : mode = "RGB"
  · subst h4m
    rw [bmpSave_RGB] at h
    injection h with h2
    subst h2
    refine ⟨?_, ?_, ?_⟩ <;> simp [savedRGBHeader, i32, o32, o16]
  by_cases h5m : mode = "RGBA"
  · subst h5m
    rw [bmpSave_RGBA] at h
    injection h with h2
    subst h2
    refine ⟨?_, ?_, ?_⟩ <;> simp [rgbaHeaderBytes, i32, o32, o16]
  · unfold bmpSave SAVE at h
    dsimp only at h
    rw [if_neg h1, if_neg h2m, if_neg h3m, if_neg h4m, if_neg h5m] at h
    exact absurd h (by simp)

end Bmp
namespace Bmp

/-- C3 amended: for a 40-byte info header the parser goes top-down (and
takes height as 2^32 - raw) exactly when the height's top byte equals 0xff;
any other top byte (including ones with the high bit set, such as 0x80)
leaves the direction bottom-up and the height as-is. -/
theorem topdown_flag (s : List Nat) (h40 : s.length = 40) :
    (s.getD 11 0 = 255 →
      parseHeaderRec s = .ok ⟨i16 (s.drop 14), i32 (s.drop 4), 2 ^ 32 - i32 (s.drop 8),
        i32 (s.drop 16), 4, i32 (s.drop 32), topDown⟩) ∧
    (s.getD 11 0 ≠ 255 →
      parseHeaderRec s = .ok ⟨i16 (s.drop 14), i32 (s.drop 4), i32 (s.drop 8),
        i32 (s.drop 16), 4, i32 (s.drop 32), bottomUp⟩) := by
  constructor <;> intro hb <;> unfold parseHeaderRec <;> rw [h40]
  · rw [if_neg (by decide), if_pos (by decide), if_pos hb]
  · rw [if_neg (by decide), if_pos (by decide), if_neg hb]

/-- Witness for the amended C3 at a header with height top byte 0xff. -/
theorem topdown_flag_witness :
    parseHeaderRec topDownStream = .ok ⟨i16 (topDownStream.drop 14),
      i32 (topDownStream.drop 4), 2 ^ 32 - i32 (topDownStream.drop 8),
      i32 (topDownStream.drop 16), 4, i32 (topDownStream.drop 32), topDown⟩ :=
  (topdown_flag topDownStream (by decide)).1 (by decide)

/-- C3 counterexample: a 40-byte header with raw height 0x80000000 (top
byte 0x80: high bit set but not 0xff) decodes bottom-up with height
2^31 taken as-is, not top-down as the claim requires. -/
theorem topdown_highbit_counterexample :
    (bitmap highBitHeightStream 0 100 0).map (fun r => (r.height, r.tile.direction)) =
      .ok (2 ^ 31, bottomUp) ∧ bottomUp ≠ topDown := by
  exact ⟨by decide, by decide⟩

/-- C10 amended: on the top-level file-open path, a zero declared
pixel-data offset falls back to the stream position at the start of
_bitmap (14, just past the file header, per the fallback at lines 75-76
which runs before the headers are read); a nonzero declared offset is used
unchanged. -/
theorem open_offset_fallback (data : List Nat) (res : DecodeResult)
    (h : bmpOpen data = .ok res) :
    (i32 ((data.take 14).drop 10) = 0 → res.tile.offset = 14) ∧
    (i32 ((data.take 14).drop 10) ≠ 0 → res.tile.offset = i32 ((data.take 14).drop 10)) := by
  unfold bmpOpen at h
  dsimp only at h
  split at h
  · exact absurd h (by simp)
  · obtain ⟨hdr, hp, hrest⟩ := bitmap_ok_inv h
    obtain ⟨_, _, _, _, _, _, hoff⟩ := bitmapRest_ok hrest
    constructor
    · intro h0
      rw [h0] at hoff
      simp at hoff
      exact hoff
    · intro hne
      rw [if_neg hne] at hoff
      exact hoff hne

/-- Witness for the amended C10 at a file with declared offset 0. -/
theorem open_offset_fallback_witness : res10.tile.offset = 14 :=
  (open_offset_fallback zeroOffsetFile res10 (by decide)).1 (by decide)

/-- C10 counterexample: on zeroOffsetFile the position after headers and
palette is 54, but the tile offset actually used is 14. -/
theorem open_offset_counterexample :
    14 + (obtainedHeader zeroOffsetFile 14).length = 54 ∧
    (bmpOpen zeroOffsetFile).map (fun r => r.tile.offset) = .ok 14 ∧ (14 : Nat) ≠ 54 := by
  exact ⟨by decide, by decide, by decide⟩

end Bmp
namespace Bmp

/-- C6 amended: the parser dispatches on the number of header bytes it
actually obtains (the declared size clamped by the stream length): when
that count is not 12, 40, 64, 108 or 124 the parse fails with
MalformedHeader, so it succeeds only at those five counts; when the stream
does supply declared-4 bytes after the size field the count equals the
declared size; and a 12-byte header parses as OS/2 core with 16-bit width
and height at offsets 4 and 6 and bottom-up direction. -/
theorem header_size_gate (data : List Nat) (hA oA p0 pos : Nat)
    (hpos : pos = if hA ≠ 0 then hA else p0) :
    (¬((obtainedHeader data pos).length = 12 ∨ (obtainedHeader data pos).length = 40 ∨
       (obtainedHeader data pos).length = 64 ∨ (obtainedHeader data pos).length = 108 ∨
       (obtainedHeader data pos).length = 124) →
      bitmap data hA oA p0 = .error .malformedHeader) ∧
    (∀ res : DecodeResult, bitmap data hA oA p0 = .ok res →
      ((obtainedHeader data pos).length = 12 ∨ (obtainedHeader data pos).length = 40 ∨
       (obtainedHeader data pos).length = 64 ∨ (obtainedHeader data pos).length = 108 ∨
       (obtainedHeader data pos).length = 124) ∧
      (4 ≤ i32 (safeRead data pos 4) → pos + i32 (safeRead data pos 4) ≤ data.length →
        (obtainedHeader data pos).length = i32 (safeRead data pos 4)) ∧
      ((obtainedHeader data pos).length = 12 →
        res.width = i16 ((obtainedHeader data pos).drop 4) ∧
        res.height = i16 ((obtainedHeader data pos).drop 6) ∧
        res.tile.direction = bottomUp)) := by
  subst hpos
  constructor
  · intro hno
    unfold bitmap
    rw [parseHeaderRec_err hno]
  · intro res h
    obtain ⟨hdr, hp, hrest⟩ := bitmap_ok_inv h
    refine ⟨parseHeaderRec_len hp, ?_, ?_⟩
    · intro h4 hle
      set d := i32 (safeRead data (if hA ≠ 0 then hA else p0) 4) with hd
      unfold obtainedHeader
      dsimp only
      rw [← hd]
      simp only [safeRead, List.length_append, List.length_take, List.length_drop]
      omega
    · intro h12
      unfold parseHeaderRec at hp
      rw [if_pos h12] at hp
      injection hp with h2
      subst h2
      obtain ⟨hw, hh, _, _, hdirr, _, _⟩ := bitmapRest_ok hrest
      exact ⟨hw, hh, hdirr⟩

/-- Witness for the amended C6: a fully-supplied 20-byte header fails with
MalformedHeader, and a 12-byte OS/2 core header parses with 16-bit
width/height and bottom-up direction. -/
theorem header_size_gate_witness :
    bitmap badCountStream 0 50 0 = .error .malformedHeader ∧
    (resCore.width = i16 ((obtainedHeader os2CoreStream 0).drop 4) ∧
     resCore.height = i16 ((obtainedHeader os2CoreStream 0).drop 6) ∧
     resCore.tile.direction = bottomUp) :=
  ⟨(header_size_gate badCountStream 0 50 0 0 (by decide)).1 (by decide),
   (((header_size_gate os2CoreStream 0 50 0 0 (by decide)).2 resCore (by decide)).2.2
     (by decide))⟩

/-- C6 counterexample: a stream declaring header size 1000 but truncated
to 12 bytes parses successfully (as OS/2 core), so an unrecognized
declared header size does not give MalformedHeader on every stream. -/
theorem header_size_counterexample :
    i32 (safeRead truncatedHeaderStream 0 4) = 1000 ∧
    (bitmap truncatedHeaderStream 0 100 0).map (fun r => r.mode) = .ok "RGB" ∧
    ((1000 : Nat) ≠ 12 ∧ (1000 : Nat) ≠ 40 ∧ (1000 : Nat) ≠ 64 ∧
     (1000 : Nat) ≠ 108 ∧ (1000 : Nat) ≠ 124) := by
  exact ⟨by decide, by decide, by decide⟩

/-- Witness for the amended C4 at a 1x1 RGB image. -/
theorem writer_header_fields_witness :
    i32 ((savedOf imRGB1).drop 14) = 56 ∧ i32 ((savedOf imRGB1).drop 30) = 3 ∧
    ((savedOf imRGB1).drop 54).take 16 = List.replicate 16 0 := by
  have hfields := writer_header_fields imRGB1 (savedOf imRGB1) (by decide)
  simpa [imRGB1] using hfields

/-- C4 counterexample: saving a bilevel (non-alpha) image emits declared
info-header size 56, not 40, and compression 3 (BitfieldMasked), not 0
(Uncompressed). -/
theorem writer_header_counterexample :
    (bmpSave im1bit).map (fun out => (i32 (out.drop 14), i32 (out.drop 30))) = .ok (56, 3) ∧
    (56 : Nat) ≠ 40 ∧ (3 : Nat) ≠ 0 := by
  exact ⟨by decide, by decide, by decide⟩

end Bmp
namespace Bmp

/-- The greyscale flag computed by the palette loop is true exactly when
every enumerated entry equals its index reduced modulo 256, repeated as a
BGR triple (the o8(i)*3 comparison at line 152). -/
theorem readPaletteEntries_grey (data : List Nat) (lutsize : Nat) :
    ∀ (idx : List Nat) (pos : Nat),
      ((readPaletteEntries data pos lutsize idx).2.1 = true ↔
        ∀ pr ∈ idx.zip (readPaletteEntries data pos lutsize idx).1,
          pr.2 = List.replicate 3 (pr.1 % 256)) := by
  intro idx
  induction idx with
  | nil => intro pos; simp [readPaletteEntries]
  | cons i rest ih =>
    intro pos
    simp only [readPaletteEntries, List.zip_cons_cons, List.mem_cons]
    by_cases hrgb : ((safeRead data pos lutsize).take 3) = List.replicate 3 (i % 256)
    · rw [if_pos hrgb]
      constructor
      · intro hf pr hpr
        rcases hpr with h1 | h2
        · rw [h1]
          exact hrgb
        · exact (ih _).mp hf pr h2
      · intro hall
        exact (ih _).mpr (fun pr hpr => hall pr (Or.inr hpr))
    · rw [if_neg hrgb]
      constructor
      · intro hf
        exact absurd hf (by simp)
      · intro hall
        exact absurd (hall ((i, (safeRead data pos lutsize).take 3)) (Or.inl rfl)) hrgb

end Bmp
namespace Bmp

/-- C7 amended: in the palette block the greyscale test compares each
entry with its index reduced modulo 256 (o8(i)); when every enumerated
entry matches, a 2-color palette collapses to mode "1" and a larger one to
mode "L", both with no stored palette; when some entry differs, the mode
stays "P" with the joined BGR entries stored. -/
theorem palette_collapse (data : List Nat) (pos colors lutsize : Nat) (rawmode : String)
    (pal : PalResult) (h : readPalette data pos colors lutsize rawmode = .ok pal) :
    ((readPaletteEntries data pos lutsize (paletteIndices colors)).2.1 = true ↔
      ∀ pr ∈ (paletteIndices colors).zip
          (readPaletteEntries data pos lutsize (paletteIndices colors)).1,
        pr.2 = List.replicate 3 (pr.1 % 256)) ∧
    ((readPaletteEntries data pos lutsize (paletteIndices colors)).2.1 = true →
      (colors = 2 → pal.mode = "1" ∧ pal.palette = none) ∧
      (colors ≠ 2 → pal.mode = "L" ∧ pal.palette = none)) ∧
    ((readPaletteEntries data pos lutsize (paletteIndices colors)).2.1 = false →
      pal.mode = "P" ∧
      pal.palette = some (readPaletteEntries data pos lutsize (paletteIndices colors)).1.flatten) := by
  refine ⟨readPaletteEntries_grey data lutsize (paletteIndices colors) pos, ?_, ?_⟩
  · intro hg
    unfold readPalette at h
    split at h
    · exact absurd h (by simp)
    · dsimp only at h
      rw [if_pos hg] at h
      constructor
      · intro hc2
        rw [if_pos hc2] at h
        injection h with h2
        subst h2
        exact ⟨rfl, rfl⟩
      · intro hc2
        rw [if_neg hc2] at h
        injection h with h2
        subst h2
        exact ⟨rfl, rfl⟩
  · intro hg
    unfold readPalette at h
    split at h
    · exact absurd h (by simp)
    · dsimp only at h
      rw [hg] at h
      simp only [Bool.false_eq_true, if_false] at h
      injection h with h2
      subst h2
      exact ⟨rfl, rfl⟩

/-- Witness for the amended C7: the 2-entry palette (0,0,0), (255,255,255)
collapses to mode "1" with no stored palette. -/
theorem palette_collapse_witness : palGrey2.mode = "1" ∧ palGrey2.palette = none :=
  ((palette_collapse greyPalBytes 0 2 4 "P;1" palGrey2 (by decide)).2.1 (by decide)).1 rfl

set_option maxRecDepth 40000 in
/-- C7 counterexample: a 257-color palette whose entry 256 is (0,0,0) and
entries 0..255 are (i,i,i) still collapses to mode "L" with no stored
palette, because the code compares entry 256 against o8(256) = 0; the
claim, which compares entry i against (i,i,i), requires this palette to
stay indexed since (0,0,0) differs from (256,256,256). -/
theorem palette_collapse_counterexample :
    (bitmap wrapGreyPaletteStream 0 999 0).map (fun r => (r.mode, r.palette)) = .ok ("L", none) ∧
    (safeRead wrapGreyPaletteStream (40 + 4 * 256) 4).take 3 = [0, 0, 0] ∧
    ([0, 0, 0] : List Nat) ≠ [256, 256, 256] ∧ ("L" : String) ≠ "P" := by
  exact ⟨by decide, by decide, by decide, by decide⟩

end Bmp
namespace Bmp

/-! ## Codec round-trip lemmas (BGRA) -/

theorem bgraBytes_length (r : List (Nat × Nat × Nat × Nat)) :
    (bgraBytes r).length = 4 * r.length := by
  induction r with
  | nil => rfl
  | cons p t ih => simp [bgraBytes] at ih ⊢; omega

theorem parseRowBGRA_bgraBytes (r : List (Nat × Nat × Nat × Nat))
    (hb : ∀ p ∈ r, p.1 < 256 ∧ p.2.1 < 256 ∧ p.2.2.1 < 256 ∧ p.2.2.2 < 256) :
    parseRowBGRA r.length (bgraBytes r) = r := by
  induction r with
  | nil => rfl
  | cons p t ih =>
    obtain ⟨pr, pg, pb, pa⟩ := p
    obtain ⟨h1, h2, h3, h4⟩ := hb (pr, pg, pb, pa) (by simp)
    have ih2 := ih (fun q hq => hb q (by simp [hq]))
    simp only [bgraBytes, List.flatMap_cons, List.cons_append, List.length_cons] at ih2 ⊢
    simp [parseRowBGRA, Nat.mod_eq_of_lt h1, Nat.mod_eq_of_lt h2, Nat.mod_eq_of_lt h3,
      Nat.mod_eq_of_lt h4, ih2]

theorem decodeRows_flatten {α : Type} (parse : List Nat → List α) (stride : Nat)
    (l : List (List Nat)) (hl : ∀ x ∈ l, x.length = stride) :
    decodeRows parse stride l.length l.flatten = l.map (fun x => parse x) := by
  induction l with
  | nil => rfl
  | cons x t ih =>
    simp only [List.flatten_cons, List.length_cons, List.map_cons, decodeRows]
    rw [List.take_left' (hl x (by simp)), List.drop_left' (hl x (by simp))]
    rw [ih (fun y hy => hl y (by simp [hy]))]

theorem rawWrite_decode (w : Nat) (rows : List (List (Nat × Nat × Nat × Nat)))
    (hrow : ∀ r ∈ rows, r.length = w ∧ ∀ p ∈ r,
      p.1 < 256 ∧ p.2.1 < 256 ∧ p.2.2.1 < 256 ∧ p.2.2.2 < 256) :
    orientRows bottomUp (decodeRows (parseRowBGRA w) (4 * w) rows.length
      (rawWrite "BGRA" (4 * w) (.rgba rows))) = rows := by
  have hlen4 : ∀ x ∈ (rows.map bgraBytes).reverse, x.length = 4 * w := by
    intro x hx
    rw [List.mem_reverse] at hx
    obtain ⟨r, hr, rfl⟩ := List.mem_map.mp hx
    rw [bgraBytes_length, (hrow r hr).1]
  have hpad : ((rows.map bgraBytes).reverse).map (padRow (4 * w)) =
      (rows.map bgraBytes).reverse := by
    have hid : ∀ x ∈ (rows.map bgraBytes).reverse, padRow (4 * w) x = x := by
      intro x hx
      simp [padRow, hlen4 x hx]
    exact (List.map_congr_left hid).trans (List.map_id' _)
  have hrowmap : ∀ r ∈ rows, ((fun x => parseRowBGRA w x) ∘ bgraBytes) r = r := by
    intro r hr
    show parseRowBGRA w (bgraBytes r) = r
    rw [← (hrow r hr).1]
    exact parseRowBGRA_bgraBytes r (hrow r hr).2
  unfold rawWrite rawEncodeRows
  dsimp only
  rw [hpad]
  rw [show rows.length = ((rows.map bgraBytes).reverse).length from by simp]
  rw [decodeRows_flatten _ _ _ hlen4]
  unfold orientRows
  rw [if_pos (by decide : bottomUp = -1)]
  simp only [← List.map_reverse, List.map_map, List.reverse_reverse]
  exact (List.map_congr_left hrowmap).trans (List.map_id' _)

end Bmp
namespace Bmp

/-! ## Byte-level facts about the writer's RGBA output -/

theorem rgba_magic (w h : Nat) (px : List Nat) :
    ((rgbaHeaderBytes w h ++ px).take 14).take 2 = [66, 77] := by
  simp [rgbaHeaderBytes, o32]

theorem rgba_offset_field (w h : Nat) (px : List Nat) :
    i32 (((rgbaHeaderBytes w h ++ px).take 14).drop 10) = 138 := by
  simp [rgbaHeaderBytes, o32, i32]

theorem rgba_obtained (w h : Nat) (px : List Nat) :
    obtainedHeader (rgbaHeaderBytes w h ++ px) 14 = rgbaInfoBytes w h := by
  simp [obtainedHeader, safeRead, rgbaHeaderBytes, rgbaInfoBytes, o32, o16, i32]

theorem rgba_drop138 (w h : Nat) (px : List Nat) :
    (rgbaHeaderBytes w h ++ px).drop 138 = px := by
  simp [rgbaHeaderBytes, o32, o16]

theorem rgbaInfo_length (w h : Nat) : (rgbaInfoBytes w h).length = 124 := by
  simp [rgbaInfoBytes, o32, o16]

theorem rgbaInfo_parse (w h : Nat) (hw : w < 2 ^ 32) (hh : h < 4278190080) :
    parseHeaderRec (rgbaInfoBytes w h) = .ok ⟨32, w, h, 3, 4, 0, bottomUp⟩ := by
  have h11 : (rgbaInfoBytes w h).getD 11 0 = h / 16777216 % 256 := by
    simp [rgbaInfoBytes, o32, o16]
  have hbits : i16 ((rgbaInfoBytes w h).drop 14) = 32 := by
    simp [rgbaInfoBytes, i16, o32, o16]
  have hwf : i32 ((rgbaInfoBytes w h).drop 4) = w := by
    simp [rgbaInfoBytes, i32, o32, o16]
    omega
  have hhf : i32 ((rgbaInfoBytes w h).drop 8) = h := by
    simp [rgbaInfoBytes, i32, o32, o16]
    omega
  have hcomp : i32 ((rgbaInfoBytes w h).drop 16) = 3 := by
    simp [rgbaInfoBytes, i32, o32, o16]
  have hcol : i32 ((rgbaInfoBytes w h).drop 32) = 0 := by
    simp [rgbaInfoBytes, i32, o32, o16]
  unfold parseHeaderRec
  rw [rgbaInfo_length]
  rw [if_neg (by decide), if_pos (by decide)]
  rw [h11, if_neg (by omega)]
  rw [hbits, hwf, hhf, hcomp, hcol]

end Bmp
namespace Bmp

/-! ## Forward evaluation lemmas for the decode stages -/

theorem bitmapRest_step (data : List Nat) (p o : Nat) (s : List Nat) (hdr : HeaderRec)
    (h : checkArea hdr.width hdr.height = .ok ()) :
    bitmapRest data p o s hdr = bitmapMode data p o s hdr := by
  unfold bitmapRest
  rw [h]

theorem bitmapMode_step (data : List Nat) (p o : Nat) (s : List Nat) (hdr : HeaderRec)
    (m rm : String) (h : BIT2MODE hdr.bits = some (m, rm)) :
    bitmapMode data p o s hdr = bitmapCompress data p o s hdr m rm := by
  unfold bitmapMode
  rw [h]

theorem bitmapCompress_step (data : List Nat) (p o : Nat) (s : List Nat) (hdr : HeaderRec)
    (m rm rm1 : String) (h3 : hdr.compression = 3)
    (hres : resolveBitfields hdr.bits
      [i32 (s.drop 40), i32 (s.drop 44), i32 (s.drop 48), i32 (s.drop 52)] = .ok rm1) :
    bitmapCompress data p o s hdr m rm = bitmapPalette data p o hdr m rm1 := by
  unfold bitmapCompress
  rw [if_pos h3, hres]

theorem bitmapPalette_noP (data : List Nat) (p o : Nat) (hdr : HeaderRec)
    (m rm1 : String) (hm : ¬ m = "P") (ho : ¬ o = 0) :
    bitmapPalette data p o hdr m rm1 =
      .ok ⟨m, hdr.width, hdr.height, hdr.bits, hdr.compression, none,
           ⟨rm1, 0, 0, hdr.width, hdr.height, o, tileStride hdr.width hdr.bits,
            hdr.direction⟩⟩ := by
  unfold bitmapPalette
  rw [if_neg hm]
  dsimp only
  rw [if_neg ho]

end Bmp
namespace Bmp

theorem rgbaInfo_masks (w h : Nat) :
    i32 ((rgbaInfoBytes w h).drop 40) = 16711680 ∧
    i32 ((rgbaInfoBytes w h).drop 44) = 65280 ∧
    i32 ((rgbaInfoBytes w h).drop 48) = 255 ∧
    i32 ((rgbaInfoBytes w h).drop 52) = 4278190080 := by
  refine ⟨?_, ?_, ?_, ?_⟩ <;> simp [rgbaInfoBytes, i32, o32, o16]

theorem rgba_bitmapRest (data : List Nat) (w h : Nat) (harea : w * h ≤ 2 ^ 31) :
    bitmapRest data 138 138 (rgbaInfoBytes w h) ⟨32, w, h, 3, 4, 0, bottomUp⟩ =
      .ok ⟨"RGBA", w, h, 32, 3, none,
           ⟨"BGRA", 0, 0, w, h, 138, tileStride w 32, bottomUp⟩⟩ := by
  have hca : checkArea w h = .ok () := by
    unfold checkArea
    rw [if_neg (by omega)]
  obtain ⟨hm1, hm2, hm3, hm4⟩ := rgbaInfo_masks w h
  have hmasks : resolveBitfields (32 : Nat)
      [i32 ((rgbaInfoBytes w h).drop 40), i32 ((rgbaInfoBytes w h).drop 44),
       i32 ((rgbaInfoBytes w h).drop 48), i32 ((rgbaInfoBytes w h).drop 52)] = .ok "BGRA" := by
    rw [hm1, hm2, hm3, hm4]
    decide
  rw [bitmapRest_step data 138 138 (rgbaInfoBytes w h) ⟨32, w, h, 3, 4, 0, bottomUp⟩ hca]
  rw [bitmapMode_step data 138 138 (rgbaInfoBytes w h) ⟨32, w, h, 3, 4, 0, bottomUp⟩
    "RGBA" "BGRA" rfl]
  rw [bitmapCompress_step data 138 138 (rgbaInfoBytes w h) ⟨32, w, h, 3, 4, 0, bottomUp⟩
    "RGBA" "BGRA" "BGRA" rfl hmasks]
  rw [bitmapPalette_noP data 138 138 ⟨32, w, h, 3, 4, 0, bottomUp⟩ "RGBA" "BGRA"
    (by decide) (by decide)]

end Bmp
namespace Bmp

theorem bmpOpen_step (data : List Nat) (h2 : (data.take 14).take 2 = [66, 77]) :
    bmpOpen data = bitmap data 0 (i32 ((data.take 14).drop 10)) 14 := by
  unfold bmpOpen
  dsimp only
  rw [if_neg (not_not_intro h2)]

theorem bitmap_step (data : List Nat) (oA : Nat) (hdr : HeaderRec)
    (hp : parseHeaderRec (obtainedHeader data 14) = .ok hdr) :
    bitmap data 0 oA 14 = bitmapRest data (14 + (obtainedHeader data 14).length)
      (if oA = 0 then 14 else oA) (obtainedHeader data 14) hdr := by
  unfold bitmap
  simp only [show (if (0 : Nat) ≠ 0 then (0 : Nat) else 14) = 14 from rfl]
  rw [hp]

theorem decodeImage_step (data : List Nat) (m rm : String)
    (w h bits comp x0 y0 x1 y1 off st : Nat) (dir : Int) (palette : Option (List Nat))
    (hopen : bmpOpen data =
      .ok ⟨m, w, h, bits, comp, palette, ⟨rm, x0, y0, x1, y1, off, st, dir⟩⟩) :
    decodeImage data =
      .ok ⟨m, w, h, decodePixels rm w h st dir (data.drop off), palette.getD []⟩ := by
  unfold decodeImage
  rw [hopen]

/-- C1 amended, positive half: for well-formed RGBA images the round trip
decode(encode(image)) is pixel-exact.  The writer emits the 124-byte info
header (valid for the parser), compression 3 with the ARGB-style masks the
resolver maps back to BGRA, a pixel-data offset of 138 matching the bytes
actually emitted, and the same stride and bottom-up direction on both
sides. -/
theorem rgba_roundtrip (w h : Nat) (rows : List (List (Nat × Nat × Nat × Nat)))
    (hw : w < 2 ^ 32) (hh : h < 4278190080) (harea : w * h ≤ 2 ^ 31)
    (hlen : rows.length = h)
    (hrow : ∀ r ∈ rows, r.length = w ∧ ∀ p ∈ r,
      p.1 < 256 ∧ p.2.1 < 256 ∧ p.2.2.1 < 256 ∧ p.2.2.2 < 256) :
    (bmpSave ⟨"RGBA", w, h, .rgba rows, []⟩).bind decodeImage =
      .ok ⟨"RGBA", w, h, .rgba rows, []⟩ := by
  subst hlen
  have hss : saveStride w 32 = 4 * w := by
    unfold saveStride andNot3
    omega
  have hts : tileStride w 32 = 4 * w := by
    unfold tileStride andNot3
    rw [Nat.shiftRight_eq_div_pow, show (2 : Nat) ^ 3 = 8 from rfl]
    omega
  rw [bmpSave_RGBA, hss]
  rw [show ∀ (x : List Nat), (Except.ok x : Except BmpError (List Nat)).bind decodeImage
      = decodeImage x from fun x => rfl]
  have hopen : bmpOpen (rgbaHeaderBytes w rows.length ++
        rawWrite "BGRA" (4 * w) (.rgba rows)) =
      .ok ⟨"RGBA", w, rows.length, 32, 3, none,
           ⟨"BGRA", 0, 0, w, rows.length, 138, tileStride w 32, bottomUp⟩⟩ := by
    rw [bmpOpen_step _ (rgba_magic w rows.length _)]
    rw [rgba_offset_field w rows.length]
    have hp2 : parseHeaderRec (obtainedHeader (rgbaHeaderBytes w rows.length ++
        rawWrite "BGRA" (4 * w) (.rgba rows)) 14) =
        .ok ⟨32, w, rows.length, 3, 4, 0, bottomUp⟩ := by
      rw [rgba_obtained w rows.length]
      exact rgbaInfo_parse w rows.length hw hh
    rw [bitmap_step _ 138 ⟨32, w, rows.length, 3, 4, 0, bottomUp⟩ hp2]
    rw [rgba_obtained w rows.length, rgbaInfo_length]
    rw [show (14 : Nat) + 124 = 138 from rfl]
    rw [show (if (138 : Nat) = 0 then (14 : Nat) else 138) = 138 from rfl]
    exact rgba_bitmapRest _ w rows.length harea
  rw [decodeImage_step _ "RGBA" "BGRA" w rows.length 32 3 0 0 w rows.length 138
    (tileStride w 32) bottomUp none hopen]
  rw [rgba_drop138 w rows.length, hts]
  have hdp : decodePixels "BGRA" w rows.length (4 * w) bottomUp
      (rawWrite "BGRA" (4 * w) (.rgba rows)) = .rgba rows := by
    unfold decodePixels
    rw [if_pos rfl]
    exact congrArg PixelData.rgba (rawWrite_decode w rows hrow)
  rw [hdp]
  rfl

end Bmp
namespace Bmp

/-- Witness for the amended C1 at a 1x1 RGBA image. -/
theorem rgba_roundtrip_witness :
    (bmpSave imRGBA1).bind decodeImage = .ok imRGBA1 :=
  rgba_roundtrip 1 1 [[(1, 2, 3, 4)]] (by decide) (by decide) (by decide) (by decide)
    (by decide)

/-- C1 counterexample: the round trip fails for the bilevel mode: the
writer declares info-header size 56, which the decoder rejects as an
unsupported header type, so decode(encode(image)) is a parse error, not
the original image. -/
theorem roundtrip_counterexample :
    (bmpSave im1bit).bind decodeImage = .error .malformedHeader ∧
    (bmpSave im1bit).bind decodeImage ≠ .ok im1bit := by
  exact ⟨by decide, by decide⟩

end Bmp
